import Mathlib

/-!
Verification development for the cryogenic hydrogen tank sizing program
(`H2 system design/H2_heat_influx.py`).

The program is embedded shallowly over exact rational arithmetic (`ℚ` in
place of IEEE floats).  External collaborators are injected as parameters:

* CoolProp (`CP.PropsSI` calls) becomes a `FluidProps` record of the exact
  query functions the program uses along the saturation curve;
* the numpy math functions and constant (`np.log`, `np.cos`, `np.tan`,
  `np.sqrt`, `np.pi`) become a `Numpy` record;
* `np.linalg.solve` on the 4×4 system is embedded as the exact Cramer
  solution (`solve4`), which is the unique solution whenever the matrix is
  invertible;
* `scipy.optimize.fsolve` (which never raises on its own) is an injected
  function parameter; `scipy.optimize.root_scalar` with the brentq method
  is modelled from the spec as a bracketed root finder that fails when the
  objective does not change sign across the bracket.

The unbounded `while` loop of `Tank.maximum_Qin` is embedded with an
explicit fuel parameter; once the loop guard `P[-1] < Pvent` fails the
state is a fixpoint, so for every run that terminates within the fuel the
embedding agrees with the source.
-/

/-- The CoolProp property queries used by the program, exactly in the shapes
they are called with (`PropsSI` of an output key, an input key and value,
the quality key with its value q, and the fluid name ParaHydrogen).
Each field takes the numeric input and the quality argument. -/
structure FluidProps where
  T_of_PQ : ℚ → ℚ → ℚ
  P_of_TQ : ℚ → ℚ → ℚ
  D_of_TQ : ℚ → ℚ → ℚ
  D_of_PQ : ℚ → ℚ → ℚ
  H_of_TQ : ℚ → ℚ → ℚ
  H_of_PQ : ℚ → ℚ → ℚ
  dD_dP_of_TQ : ℚ → ℚ → ℚ
  dD_dT_of_PQ : ℚ → ℚ → ℚ
  dH_dP_of_TQ : ℚ → ℚ → ℚ
  dH_dT_of_PQ : ℚ → ℚ → ℚ

/-- The numpy functions and constant used by the program. -/
structure Numpy where
  log : ℚ → ℚ
  cos : ℚ → ℚ
  tan : ℚ → ℚ
  sqrt : ℚ → ℚ
  pi : ℚ

/-- A row of the material database: `mat_properties` entries are
`[density, yield strength, thermal conductivity, emissivity, CO2, embodied
energy, fibre ratio]`, unpacked by `Tank.__init__` in this order. -/
structure MatProp where
  density : ℚ
  yield_strength : ℚ
  thermal_conductivity : ℚ
  emissivity : ℚ
  co2 : ℚ
  ee : ℚ
  fibre_ratio : ℚ
deriving Inhabited

/-- The state of a `Tank` object after `Tank.__init__`. -/
structure Tank where
  material : String
  material2 : String
  mat_property : MatProp
  mat2_property : MatProp
  dormancy : ℚ
  fill_ratio : ℚ
  mass_h2 : ℚ
  stratification_factor : ℚ
  k_str : ℚ
  MAWP : ℚ
  Pvent : ℚ
  P0 : ℚ
  T0 : ℚ
  rhol0 : ℚ
  rhog0 : ℚ
  V_in : ℚ
  mg0 : ℚ
  ml0 : ℚ
  hg0 : ℚ
  hl0 : ℚ
  x0 : ℚ
  R_in : ℚ
  Q_leak_min : ℚ
  Q_leak_max : ℚ

/-- `Tank.__init__(MAWP, material, material2, mat_property, mass_h2,
mat2_property, fill, V_in, p_vent)`. -/
def Tank.init (props : FluidProps) (MAWP : ℚ) (material material2 : String)
    (mat_property : MatProp) (mass_h2 : ℚ) (mat2_property : MatProp)
    (fill V_in p_vent : ℚ) : Tank :=
  let P0 : ℚ := 101000
  let T0 := props.T_of_PQ P0 (1/10)
  { material := material
    material2 := material2
    mat_property := mat_property
    mat2_property := mat2_property
    dormancy := 24
    fill_ratio := fill
    mass_h2 := mass_h2
    stratification_factor := 2
    k_str := 19/10
    MAWP := MAWP
    Pvent := p_vent
    P0 := P0
    T0 := T0
    rhol0 := props.D_of_TQ T0 0
    rhog0 := props.D_of_TQ T0 1
    V_in := V_in
    mg0 := props.D_of_TQ T0 1 * V_in * (1 - fill)
    ml0 := props.D_of_TQ T0 0 * V_in * fill
    hg0 := props.H_of_TQ T0 1
    hl0 := props.H_of_TQ T0 0
    x0 := props.D_of_TQ T0 1 * V_in * (1 - fill) /
      (props.D_of_TQ T0 1 * V_in * (1 - fill) + props.D_of_TQ T0 0 * V_in * fill)
    R_in := 4/5
    Q_leak_min := 10
    Q_leak_max := 1000 }

/-- A 4-dimensional vector, indexed as `differential_matrix[0..3]`. -/
structure Vec4 where
  x1 : ℚ
  x2 : ℚ
  x3 : ℚ
  x4 : ℚ

/-- A dense 4×4 matrix. -/
structure Mat4 where
  a11 : ℚ
  a12 : ℚ
  a13 : ℚ
  a14 : ℚ
  a21 : ℚ
  a22 : ℚ
  a23 : ℚ
  a24 : ℚ
  a31 : ℚ
  a32 : ℚ
  a33 : ℚ
  a34 : ℚ
  a41 : ℚ
  a42 : ℚ
  a43 : ℚ
  a44 : ℚ

/-- Determinant of a 3×3 matrix given row-wise. -/
def det3 (b11 b12 b13 b21 b22 b23 b31 b32 b33 : ℚ) : ℚ :=
  b11 * (b22 * b33 - b23 * b32) - b12 * (b21 * b33 - b23 * b31)
    + b13 * (b21 * b32 - b22 * b31)

/-- Determinant of a 4×4 matrix, by cofactor expansion along the first row. -/
def det4 (M : Mat4) : ℚ :=
  M.a11 * det3 M.a22 M.a23 M.a24 M.a32 M.a33 M.a34 M.a42 M.a43 M.a44
  - M.a12 * det3 M.a21 M.a23 M.a24 M.a31 M.a33 M.a34 M.a41 M.a43 M.a44
  + M.a13 * det3 M.a21 M.a22 M.a24 M.a31 M.a32 M.a34 M.a41 M.a42 M.a44
  - M.a14 * det3 M.a21 M.a22 M.a23 M.a31 M.a32 M.a33 M.a41 M.a42 M.a43

/-- Replace column 1 of `M` by `b`. -/
def setCol1 (M : Mat4) (b : Vec4) : Mat4 :=
  { M with a11 := b.x1, a21 := b.x2, a31 := b.x3, a41 := b.x4 }

/-- Replace column 2 of `M` by `b`. -/
def setCol2 (M : Mat4) (b : Vec4) : Mat4 :=
  { M with a12 := b.x1, a22 := b.x2, a32 := b.x3, a42 := b.x4 }

/-- Replace column 3 of `M` by `b`. -/
def setCol3 (M : Mat4) (b : Vec4) : Mat4 :=
  { M with a13 := b.x1, a23 := b.x2, a33 := b.x3, a43 := b.x4 }

/-- Replace column 4 of `M` by `b`. -/
def setCol4 (M : Mat4) (b : Vec4) : Mat4 :=
  { M with a14 := b.x1, a24 := b.x2, a34 := b.x3, a44 := b.x4 }

/-- Embedding of `np.linalg.solve(A, B)` for the 4×4 system: the Cramer
solution, which is the unique solution of `A·x = B` whenever
`det4 A ≠ 0` (for singular `A` numpy raises; the value returned here in
that case is never relied upon). -/
def solve4 (M : Mat4) (b : Vec4) : Vec4 :=
  ⟨det4 (setCol1 M b) / det4 M, det4 (setCol2 M b) / det4 M,
   det4 (setCol3 M b) / det4 M, det4 (setCol4 M b) / det4 M⟩

/-- The per-iteration samples built by `Tank.maximum_Qin`: one list per
Python list, with the most recent element at the head (so `.headI` is
the Python `[-1]`). -/
structure SimState where
  P : List ℚ
  T : List ℚ
  mg : List ℚ
  ml : List ℚ
  rhog : List ℚ
  rhol : List ℚ
  hg : List ℚ
  hl : List ℚ
  x : List ℚ
  Ps : List ℚ
  time : List ℚ

/-- The initial lists of `Tank.maximum_Qin` (lines 64–74). -/
def SimState.init (tank : Tank) : SimState :=
  { P := [tank.P0]
    T := [tank.T0]
    mg := [tank.mg0]
    ml := [tank.ml0]
    rhog := [tank.rhog0]
    rhol := [tank.rhol0]
    hg := [tank.hg0]
    hl := [tank.hl0]
    x := [tank.x0]
    Ps := [tank.P0]
    time := [0] }

/-- The fixed Euler time step `dt = 250` s. -/
def dt : ℚ := 250

/-- One evaluation of the 4×4 linear system of `Tank.maximum_Qin`
(lines 78–113): the derivative queries, the finite-difference `dPs_dT`,
the matrix `A` and vector `B`, solved for
`[dP/dt, dT/dt, dmg/dt, dml/dt]` (before the stratification factor is
applied to `dP/dt`). -/
def simDeriv (props : FluidProps) (tank : Tank) (Qleak : ℚ) (s : SimState) : Vec4 :=
  let Tl := s.T.headI
  let Pl := s.P.headI
  let delrhog_delP := props.dD_dP_of_TQ Tl 1
  let delrhol_delP := props.dD_dP_of_TQ Tl 0
  let delrhog_delT := props.dD_dT_of_PQ Pl 1
  let delrhol_delT := props.dD_dT_of_PQ Pl 0
  let delhg_delP := props.dH_dP_of_TQ Tl 1
  let delhl_delP := props.dH_dP_of_TQ Tl 0
  let delhg_delT := props.dH_dT_of_PQ Pl 1
  let delhl_delT := props.dH_dT_of_PQ Pl 0
  let T_increment : ℚ := 65/10000000
  let T_new := Tl + T_increment
  let P_new := props.P_of_TQ T_new (1/10)
  let dPs_dT := (P_new - Pl) / (T_new - Tl)
  let A21 := -(((s.mg.headI / (s.rhog.headI ^ 2)) * delrhog_delP)
    + ((s.ml.headI / (s.rhol.headI ^ 2)) * delrhol_delP))
  let A22 := -(((s.mg.headI / (s.rhog.headI ^ 2)) * delrhog_delT)
    + ((s.ml.headI / (s.rhol.headI ^ 2)) * delrhol_delT))
  let A42 := (s.ml.headI * delhl_delT) + (s.mg.headI * delhg_delT)
    + (((s.ml.headI * delhl_delP) + (s.mg.headI * delhg_delP) - tank.V_in) * dPs_dT)
  solve4
    ⟨1, -dPs_dT, 0, 0,
     A21, A22, (1 / s.rhog.headI) - (1 / s.rhol.headI), 0,
     0, 0, 1, 1,
     0, A42, -(s.hl.headI - s.hg.headI), 0⟩
    ⟨0, 0, 0, Qleak⟩

/-- One iteration of the `while` loop body of `Tank.maximum_Qin`
(lines 78–128): solve the linear system, Euler-update the pressure, re-query
the saturation temperature at the new pressure, then either clamp the vapor
mass to zero (appending nothing else) or append the updated masses,
quality, densities, enthalpies, saturation pressure and time. -/
def simStep (props : FluidProps) (tank : Tank) (Qleak : ℚ) (s : SimState) : SimState :=
  let d := simDeriv props tank Qleak s
  let dP_dt := d.x1 * tank.stratification_factor
  let dmg_dt := d.x3
  let dml_dt := d.x4
  let P1 := s.P.headI + dt * dP_dt
  let T1 := props.T_of_PQ P1 (1/10)
  if s.mg.headI + dt * dmg_dt ≤ 0 then
    { s with P := P1 :: s.P, T := T1 :: s.T, mg := 0 :: s.mg }
  else
    { P := P1 :: s.P
      T := T1 :: s.T
      mg := (s.mg.headI + dt * dmg_dt) :: s.mg
      ml := (s.ml.headI + dt * dml_dt) :: s.ml
      x := ((s.mg.headI + dt * dmg_dt)
        / ((s.mg.headI + dt * dmg_dt) + (s.ml.headI + dt * dml_dt))) :: s.x
      rhog := props.D_of_PQ P1 1 :: s.rhog
      rhol := props.D_of_PQ P1 0 :: s.rhol
      hg := props.H_of_PQ P1 1 :: s.hg
      hl := props.H_of_PQ P1 0 :: s.hl
      Ps := props.P_of_TQ T1 (1/2) :: s.Ps
      time := (s.time.headI + dt) :: s.time }

/-- The `while P[-1] < self.Pvent` loop of `Tank.maximum_Qin`, with an
explicit fuel bound.  Once the guard fails the state is a fixpoint, so the
embedding agrees with the source on every run that terminates within the
fuel. -/
def simRun (props : FluidProps) (tank : Tank) (Qleak : ℚ) : Nat → SimState
  | 0 => SimState.init tank
  | n + 1 =>
    let s := simRun props tank Qleak n
    if s.P.headI < tank.Pvent then simStep props tank Qleak s else s

/-- The elapsed simulated time, in hours, when the run stops:
`time_hours[-1]` of `Tank.maximum_Qin` (line 130). -/
def elapsed_hours_to_vent (props : FluidProps) (tank : Tank) (Qleak : ℚ)
    (fuel : Nat) : ℚ :=
  (simRun props tank Qleak fuel).time.headI / 3600

/-- `Tank.maximum_Qin(Qleak)` (lines 63–132): returns
`time_hours[-1] - self.dormancy`. -/
def Tank.maximum_Qin (props : FluidProps) (tank : Tank) (Qleak : ℚ)
    (fuel : Nat) : ℚ :=
  elapsed_hours_to_vent props tank Qleak fuel - tank.dormancy

/-- The two Cramer numerators for the third and fourth unknowns cancel
whenever the third matrix row is `(0, 0, 1, 1)` and the third entry of the
right-hand side is `0`. -/
theorem det4_setCol3_add_setCol4 (a11 a12 a13 a14 a21 a22 a23 a24 a41 a42 a43 a44 q : ℚ) :
    det4 (setCol3 ⟨a11, a12, a13, a14, a21, a22, a23, a24, 0, 0, 1, 1,
        a41, a42, a43, a44⟩ ⟨0, 0, 0, q⟩)
      + det4 (setCol4 ⟨a11, a12, a13, a14, a21, a22, a23, a24, 0, 0, 1, 1,
        a41, a42, a43, a44⟩ ⟨0, 0, 0, q⟩) = 0 := by
  simp only [det4, det3, setCol3, setCol4]
  ring

/-- For a system whose third row states `dmg/dt + dml/dt = 0` (row
`(0,0,1,1)`, right-hand side `0`), the solved third and fourth components
sum to zero. -/
theorem solve4_mass_row (a11 a12 a13 a14 a21 a22 a23 a24 a41 a42 a43 a44 q : ℚ) :
    (solve4 ⟨a11, a12, a13, a14, a21, a22, a23, a24, 0, 0, 1, 1,
        a41, a42, a43, a44⟩ ⟨0, 0, 0, q⟩).x3
      + (solve4 ⟨a11, a12, a13, a14, a21, a22, a23, a24, 0, 0, 1, 1,
        a41, a42, a43, a44⟩ ⟨0, 0, 0, q⟩).x4 = 0 := by
  show det4 _ / det4 _ + det4 _ / det4 _ = 0
  rw [div_add_div_same, det4_setCol3_add_setCol4, zero_div]

/-- The linear system built at every step of `Tank.maximum_Qin` has third
row `(0,0,1,1)` with right-hand side `0`, so the solved mass derivatives
cancel: `dmg/dt + dml/dt = 0`. -/
theorem simDeriv_x3_add_x4 (props : FluidProps) (tank : Tank) (Qleak : ℚ) (s : SimState) :
    (simDeriv props tank Qleak s).x3 + (simDeriv props tank Qleak s).x4 = 0 := by
  unfold simDeriv
  exact solve4_mass_row _ _ _ _ _ _ _ _ _ _ _ _ _

/-- Invariant carried through the run: the liquid-mass list never outgrows
the vapor-mass list (the clamp appends only to `mg`), and while the two
lists have equal length — i.e. while the clamp has never triggered — the
current vapor plus liquid mass equals the initial total mass. -/
def massInv (tank : Tank) (s : SimState) : Prop :=
  s.ml.length ≤ s.mg.length ∧
    (s.mg.length = s.ml.length → s.mg.headI + s.ml.headI = tank.mg0 + tank.ml0)

theorem simStep_massInv (props : FluidProps) (tank : Tank) (Qleak : ℚ) (s : SimState)
    (h : massInv tank s) : massInv tank (simStep props tank Qleak s) := by
  obtain ⟨hle, hsum⟩ := h
  simp only [simStep, massInv]
  split
  · refine ⟨by simpa using Nat.le_succ_of_le hle, ?_⟩
    intro hEq
    simp only [List.length_cons] at hEq
    omega
  · refine ⟨by simpa using Nat.succ_le_succ hle, ?_⟩
    intro hEq
    simp only [List.length_cons, Nat.succ.injEq] at hEq
    have hd := simDeriv_x3_add_x4 props tank Qleak s
    have h2 : dt * (simDeriv props tank Qleak s).x3
        + dt * (simDeriv props tank Qleak s).x4 = 0 := by
      rw [← mul_add, hd, mul_zero]
    have h3 := hsum hEq
    simp only [List.headI_cons]
    linarith

theorem simRun_massInv (props : FluidProps) (tank : Tank) (Qleak : ℚ) :
    ∀ n, massInv tank (simRun props tank Qleak n)
  | 0 => by exact ⟨le_refl _, fun _ => rfl⟩
  | n + 1 => by
    have ih := simRun_massInv props tank Qleak n
    simp only [simRun]
    split
    · exact simStep_massInv props tank Qleak _ ih
    · exact ih

/-- C1: during one run of the transient integrator with any heat input, at
every step taken before the zero-vapor clamp triggers (equivalently: while
the `mg` and `ml` sample lists still have equal length, since the clamp
branch appends only to `mg`), the current vapor mass plus liquid mass
equals the initial total fluid mass `mg0 + ml0`.  In this exact-arithmetic
model the equality is exact; it holds because the third row of the linear
system enforces `dmg/dt + dml/dt = 0` and both masses advance by the same
Euler step. -/
theorem mass_conservation_before_clamp (props : FluidProps) (tank : Tank)
    (Qleak : ℚ) (fuel : Nat)
    (h : (simRun props tank Qleak fuel).mg.length
      = (simRun props tank Qleak fuel).ml.length) :
    (simRun props tank Qleak fuel).mg.headI + (simRun props tank Qleak fuel).ml.headI
      = tank.mg0 + tank.ml0 :=
  (simRun_massInv props tank Qleak fuel).2 h

/-- A synthetic fluid-property provider with constant density/enthalpy
derivative fields and identity saturation maps; under it the linear system
solves to `dT/dt = Qleak / A42`, `dP/dt = dT/dt`, `dmg/dt = dml/dt = 0`. -/
def rampProv : FluidProps :=
  { T_of_PQ := fun p _ => p
    P_of_TQ := fun t _ => t
    D_of_TQ := fun _ q => if q = 1 then 1 else 2
    D_of_PQ := fun _ q => if q = 1 then 1 else 2
    H_of_TQ := fun _ _ => 0
    H_of_PQ := fun _ _ => 0
    dD_dP_of_TQ := fun _ _ => 0
    dD_dT_of_PQ := fun _ _ => 0
    dH_dP_of_TQ := fun _ _ => 0
    dH_dT_of_PQ := fun _ _ => 1 }

/-- A concrete tank state used to exercise the integrator. -/
def tankA : Tank :=
  { material := "Al-7075-T6"
    material2 := "Al-7075-T6"
    mat_property := ⟨1, 1, 1, 1, 1, 1, 0⟩
    mat2_property := ⟨1, 1, 1, 1, 1, 1, 0⟩
    dormancy := 5/72
    fill_ratio := 1/2
    mass_h2 := 1
    stratification_factor := 2
    k_str := 19/10
    MAWP := 1200000
    Pvent := 10 ^ 9
    P0 := 0
    T0 := 0
    rhol0 := 2
    rhog0 := 1
    V_in := 0
    mg0 := 1
    ml0 := 1
    hg0 := 0
    hl0 := 0
    x0 := 1/2
    R_in := 4/5
    Q_leak_min := 10
    Q_leak_max := 1000 }

theorem mass_conservation_before_clamp_witness :
    (simRun rampProv tankA 100 2).mg.length = (simRun rampProv tankA 100 2).ml.length ∧
    (simRun rampProv tankA 100 2).mg.headI + (simRun rampProv tankA 100 2).ml.headI
      = tankA.mg0 + tankA.ml0 :=
  ⟨by with_unfolding_all decide,
   mass_conservation_before_clamp rampProv tankA 100 2 (by with_unfolding_all decide)⟩

/-- C3: one iteration of the integrator either clamps or updates.  If the
Euler-updated vapor mass would be non-positive, the vapor-mass list gets `0`
appended while liquid mass, quality, densities, enthalpies, saturation
pressure and elapsed time are left at their last values (nothing appended);
pressure and temperature are still advanced, keeping the rest of the state
at its last valid values.  Otherwise every state list is updated and the
elapsed time advances by `dt`. -/
theorem clamp_freeze_step (props : FluidProps) (tank : Tank) (Qleak : ℚ) (s : SimState) :
    let d := simDeriv props tank Qleak s
    let P1 := s.P.headI + dt * (d.x1 * tank.stratification_factor)
    let T1 := props.T_of_PQ P1 (1/10)
    (s.mg.headI + dt * d.x3 ≤ 0 →
      (simStep props tank Qleak s).P = P1 :: s.P ∧
      (simStep props tank Qleak s).T = T1 :: s.T ∧
      (simStep props tank Qleak s).mg = 0 :: s.mg ∧
      (simStep props tank Qleak s).ml = s.ml ∧
      (simStep props tank Qleak s).x = s.x ∧
      (simStep props tank Qleak s).rhog = s.rhog ∧
      (simStep props tank Qleak s).rhol = s.rhol ∧
      (simStep props tank Qleak s).hg = s.hg ∧
      (simStep props tank Qleak s).hl = s.hl ∧
      (simStep props tank Qleak s).Ps = s.Ps ∧
      (simStep props tank Qleak s).time = s.time) ∧
    (¬ (s.mg.headI + dt * d.x3 ≤ 0) →
      (simStep props tank Qleak s).P = P1 :: s.P ∧
      (simStep props tank Qleak s).T = T1 :: s.T ∧
      (simStep props tank Qleak s).mg = (s.mg.headI + dt * d.x3) :: s.mg ∧
      (simStep props tank Qleak s).ml = (s.ml.headI + dt * d.x4) :: s.ml ∧
      (simStep props tank Qleak s).x = ((s.mg.headI + dt * d.x3)
        / ((s.mg.headI + dt * d.x3) + (s.ml.headI + dt * d.x4))) :: s.x ∧
      (simStep props tank Qleak s).rhog = props.D_of_PQ P1 1 :: s.rhog ∧
      (simStep props tank Qleak s).rhol = props.D_of_PQ P1 0 :: s.rhol ∧
      (simStep props tank Qleak s).hg = props.H_of_PQ P1 1 :: s.hg ∧
      (simStep props tank Qleak s).hl = props.H_of_PQ P1 0 :: s.hl ∧
      (simStep props tank Qleak s).Ps = props.P_of_TQ T1 (1/2) :: s.Ps ∧
      (simStep props tank Qleak s).time = (s.time.headI + dt) :: s.time) := by
  intro d P1 T1
  simp only [simStep]
  split_ifs with hc
  · exact ⟨fun _ => ⟨rfl, rfl, rfl, rfl, rfl, rfl, rfl, rfl, rfl, rfl, rfl⟩,
      fun h => absurd hc h⟩
  · exact ⟨fun h => absurd h hc,
      fun _ => ⟨rfl, rfl, rfl, rfl, rfl, rfl, rfl, rfl, rfl, rfl, rfl⟩⟩

/-- A synthetic provider under which the linear system solves to a strongly
negative vapor-mass derivative, triggering the zero-vapor clamp. -/
def clampProv : FluidProps :=
  { T_of_PQ := fun p _ => p
    P_of_TQ := fun t _ => t
    D_of_TQ := fun _ q => if q = 1 then 1 else 2
    D_of_PQ := fun _ q => if q = 1 then 1 else 2
    H_of_TQ := fun _ _ => 0
    H_of_PQ := fun _ _ => 0
    dD_dP_of_TQ := fun _ _ => 0
    dD_dT_of_PQ := fun _ q => if q = 1 then -1 else 0
    dH_dP_of_TQ := fun _ q => if q = 0 then 1 else 0
    dH_dT_of_PQ := fun _ _ => 0 }

/-- A concrete simulation state with unit masses. -/
def stateA : SimState :=
  { P := [0]
    T := [0]
    mg := [1]
    ml := [1]
    rhog := [1]
    rhol := [2]
    hg := [0]
    hl := [0]
    x := [1/2]
    Ps := [0]
    time := [0] }

theorem clamp_freeze_step_witness :
    (stateA.mg.headI + dt * (simDeriv clampProv tankA 100 stateA).x3 ≤ 0) ∧
    (simStep clampProv tankA 100 stateA).mg = 0 :: stateA.mg ∧
    (simStep clampProv tankA 100 stateA).ml = stateA.ml ∧
    (simStep clampProv tankA 100 stateA).time = stateA.time := by
  have h : stateA.mg.headI + dt * (simDeriv clampProv tankA 100 stateA).x3 ≤ 0 := by
    with_unfolding_all decide
  have hc := (clamp_freeze_step clampProv tankA 100 stateA).1 h
  exact ⟨h, hc.2.2.1, hc.2.2.2.1, hc.2.2.2.2.2.2.2.2.2.2⟩

/-- The integrator step reads the tank only through `V_in` and
`stratification_factor`, so it is identical for two tanks agreeing on
those fields. -/
theorem simStep_eq_of_fields (props : FluidProps) (t1 t2 : Tank) (Qleak : ℚ)
    (hV : t1.V_in = t2.V_in)
    (hstrat : t1.stratification_factor = t2.stratification_factor) (s : SimState) :
    simStep props t1 Qleak s = simStep props t2 Qleak s := by
  simp only [simStep, simDeriv, hV, hstrat]

/-- The whole run agrees for two tanks agreeing on the fields the loop
reads (`V_in`, `stratification_factor`, `Pvent`) and on the initial
sample lists. -/
theorem simRun_eq_of_fields (props : FluidProps) (t1 t2 : Tank) (Qleak : ℚ)
    (hV : t1.V_in = t2.V_in)
    (hstrat : t1.stratification_factor = t2.stratification_factor)
    (hvent : t1.Pvent = t2.Pvent) (hinit : SimState.init t1 = SimState.init t2) :
    ∀ n, simRun props t1 Qleak n = simRun props t2 Qleak n := by
  intro n
  induction n with
  | zero => simpa only [simRun] using hinit
  | succ n ih =>
    simp only [simRun, ih, hvent, simStep_eq_of_fields props t1 t2 Qleak hV hstrat]

/-- C10: the run of the transient integrator is independent of the
`mass_h2` constructor argument: for two `Tank.init` calls differing only in
`mass_h2`, `Tank.maximum_Qin` returns the same value for every heat input
and fuel bound, because the initial masses are derived from the tank
volume, the fill ratio and saturation densities at the fixed initial
pressure, and the loop never reads `self.mass_h2`. -/
theorem elapsed_independent_of_mass_h2 (props : FluidProps) (MAWP : ℚ)
    (material material2 : String) (mat_property : MatProp) (m1 m2 : ℚ)
    (mat2_property : MatProp) (fill V_in p_vent Qleak : ℚ) (fuel : Nat) :
    Tank.maximum_Qin props
      (Tank.init props MAWP material material2 mat_property m1 mat2_property fill V_in p_vent)
      Qleak fuel
    = Tank.maximum_Qin props
      (Tank.init props MAWP material material2 mat_property m2 mat2_property fill V_in p_vent)
      Qleak fuel := by
  have hrun := simRun_eq_of_fields props
    (Tank.init props MAWP material material2 mat_property m1 mat2_property fill V_in p_vent)
    (Tank.init props MAWP material material2 mat_property m2 mat2_property fill V_in p_vent)
    Qleak (by simp only [Tank.init]) (by simp only [Tank.init]) (by simp only [Tank.init])
    (by simp only [SimState.init, Tank.init])
  simp only [Tank.maximum_Qin, elapsed_hours_to_vent, hrun]
  simp only [Tank.init]

/-- C2: whenever the heat leak `Qleak` lies in the root-finding bracket,
the run reaches the vent pressure within the fuel bound, and `Qleak` is an
exact root of the dormancy objective `Tank.maximum_Qin` (which is what the
spec asserts of a converged bracketed root find), then feeding `Qleak` back
into the elapsed-hours simulation reproduces the requested dormancy hours
exactly. -/
theorem heat_leak_roundtrip (props : FluidProps) (tank : Tank) (Qleak : ℚ) (fuel : Nat)
    (_hlo : tank.Q_leak_min ≤ Qleak) (_hhi : Qleak ≤ tank.Q_leak_max)
    (_hterm : tank.Pvent ≤ (simRun props tank Qleak fuel).P.headI)
    (hroot : Tank.maximum_Qin props tank Qleak fuel = 0) :
    elapsed_hours_to_vent props tank Qleak fuel = tank.dormancy := by
  unfold Tank.maximum_Qin at hroot
  linarith

/-- `tankA` with a vent pressure low enough that the ramp provider reaches
it in a single `dt` step; its dormancy field equals `250/3600` hours. -/
def tankB : Tank := { tankA with Pvent := 1 }

theorem heat_leak_roundtrip_witness :
    elapsed_hours_to_vent rampProv tankB 100 1 = tankB.dormancy :=
  heat_leak_roundtrip rampProv tankB 100 1
    (by with_unfolding_all decide) (by with_unfolding_all decide)
    (by with_unfolding_all decide) (by with_unfolding_all decide)

/-- The netting-theory candidate thickness computed inside the composite
branch of `Tank.inner_tank_thickness` (lines 147–158) for one helical
winding angle `ang`: membrane loads from the test pressure, hoop and
helical netting components, summed and divided by the fibre volume
fraction. -/
def inner_netting (np : Numpy) (tank : Tank) (ang : ℚ) : ℚ :=
  let P_test := (tank.MAWP + 2/10 * 100000) * (13/10)
  let N_theta_p := P_test * tank.R_in
  let N_phi_p := P_test * tank.R_in / 2
  let t_heli := N_phi_p / (tank.mat_property.yield_strength * np.cos ang ^ 2)
  let t_hoop := (N_theta_p - N_phi_p * np.tan ang ^ 2) / tank.mat_property.yield_strength
  (t_heli + t_hoop) / tank.mat_property.fibre_ratio

/-- `Tank.inner_tank_thickness()` (lines 143–164): isotropic metals get the
closed-form hoop thickness with winding angle `0`; the two composite
materials search the candidate angles `[0, 90, 0.1]` for the smallest
netting thickness, starting from `t_min = 1000`, `alpha = 0`, replacing the
running minimum only on a strict decrease. -/
def Tank.inner_tank_thickness (np : Numpy) (tank : Tank) : ℚ × ℚ :=
  let P_test := (tank.MAWP + 2/10 * 100000) * (13/10)
  if tank.material = "G10" ∨ tank.material = "Carbon Fibre Woven Prepreg (QI)" then
    ([0, 90, 1/10] : List ℚ).foldl (fun acc ang =>
      let t := inner_netting np tank ang
      if t < acc.1 then (t, ang) else acc) (1000, 0)
  else
    (P_test * tank.R_in / tank.mat_property.yield_strength, 0)

/-- C7: for an isotropic (non-composite) inner material the returned
thickness is `P_test * R_in / yield_strength` with winding angle `0`, and
consequently — radius held fixed — the thickness scales linearly with the
test pressure and inversely with the yield strength: if a second isotropic
tank has the same radius, test pressure scaled by `c`, and yield strength
scaled by `d`, its thickness is `(c/d)` times the first. -/
theorem isotropic_thickness_formula (np : Numpy) (t1 t2 : Tank) (c d : ℚ)
    (h1g : t1.material ≠ "G10") (h1c : t1.material ≠ "Carbon Fibre Woven Prepreg (QI)")
    (h2g : t2.material ≠ "G10") (h2c : t2.material ≠ "Carbon Fibre Woven Prepreg (QI)")
    (hR : t2.R_in = t1.R_in)
    (hP : (t2.MAWP + 2/10 * 100000) * (13/10) = c * ((t1.MAWP + 2/10 * 100000) * (13/10)))
    (hY : t2.mat_property.yield_strength = d * t1.mat_property.yield_strength) :
    Tank.inner_tank_thickness np t1
      = ((t1.MAWP + 2/10 * 100000) * (13/10) * t1.R_in / t1.mat_property.yield_strength, 0) ∧
    (Tank.inner_tank_thickness np t2).1 = (c / d) * (Tank.inner_tank_thickness np t1).1 := by
  have e1 : Tank.inner_tank_thickness np t1
      = ((t1.MAWP + 2/10 * 100000) * (13/10) * t1.R_in / t1.mat_property.yield_strength, 0) := by
    simp only [Tank.inner_tank_thickness]
    rw [if_neg (by simp [h1g, h1c])]
  have e2 : Tank.inner_tank_thickness np t2
      = ((t2.MAWP + 2/10 * 100000) * (13/10) * t2.R_in / t2.mat_property.yield_strength, 0) := by
    simp only [Tank.inner_tank_thickness]
    rw [if_neg (by simp [h2g, h2c])]
  refine ⟨e1, ?_⟩
  rw [e1, e2, hR, hP, hY]
  by_cases hd : d = 0
  · subst hd
    simp
  · field_simp
    ring

/-- A concrete numpy record: identity `log`/`sqrt`, constant `cos = 1`,
`tan = 0`, `pi = 3`. -/
def npA : Numpy :=
  { log := fun x => x
    cos := fun _ => 1
    tan := fun _ => 0
    sqrt := fun x => x
    pi := 3 }

/-- `tankA` with doubled test pressure and tripled yield strength. -/
def tankC : Tank :=
  { tankA with MAWP := 2420000, mat_property := ⟨1, 3, 1, 1, 1, 1, 0⟩ }

theorem isotropic_thickness_formula_witness :
    Tank.inner_tank_thickness npA tankA
      = ((tankA.MAWP + 2/10 * 100000) * (13/10) * tankA.R_in / tankA.mat_property.yield_strength, 0) ∧
    (Tank.inner_tank_thickness npA tankC).1 = (2 / 3) * (Tank.inner_tank_thickness npA tankA).1 :=
  isotropic_thickness_formula npA tankA tankC 2 3
    (by simp [tankA]) (by simp [tankA])
    (by simp [tankC, tankA]) (by simp [tankC, tankA])
    (by norm_num [tankC, tankA]) (by norm_num [tankC, tankA])
    (by norm_num [tankC, tankA])

/-- C8: for a composite inner material the angle returned by the candidate
search is one of the supplied candidates `{0, 90, 0.1}`, the returned
thickness is at most the netting-theory thickness at every candidate (in
particular at the two candidates other than the returned angle), and the
first angle achieving the minimum wins any tie: if the thickness at the
first candidate `0` is no larger than at the other two (and beats the
`1000` initialisation), the returned angle is `0` with its thickness. -/
theorem composite_angle_search (np : Numpy) (tank : Tank)
    (hmat : tank.material = "G10" ∨ tank.material = "Carbon Fibre Woven Prepreg (QI)") :
    ((Tank.inner_tank_thickness np tank).2 = 0 ∨
     (Tank.inner_tank_thickness np tank).2 = 90 ∨
     (Tank.inner_tank_thickness np tank).2 = 1/10) ∧
    (Tank.inner_tank_thickness np tank).1 ≤ inner_netting np tank 0 ∧
    (Tank.inner_tank_thickness np tank).1 ≤ inner_netting np tank 90 ∧
    (Tank.inner_tank_thickness np tank).1 ≤ inner_netting np tank (1/10) ∧
    (inner_netting np tank 0 ≤ inner_netting np tank 90 →
      inner_netting np tank 0 ≤ inner_netting np tank (1/10) →
      inner_netting np tank 0 < 1000 →
      (Tank.inner_tank_thickness np tank).2 = 0 ∧
      (Tank.inner_tank_thickness np tank).1 = inner_netting np tank 0) := by
  simp only [Tank.inner_tank_thickness, if_pos hmat, List.foldl_cons, List.foldl_nil]
  split_ifs <;> (dsimp only at *) <;> push_neg at * <;>
    refine ⟨by norm_num, by linarith, by linarith, by linarith, fun ha hb hc => ?_⟩ <;>
    first
      | exact ⟨rfl, rfl⟩
      | (exfalso; linarith)

/-- A concrete composite-material tank: `G10` inner shell with unit
material properties and a small radius. -/
def tankD : Tank :=
  { tankA with
    material := "G10"
    MAWP := 0
    R_in := 1/100
    mat_property := ⟨1, 1, 1, 1, 1, 1, 1⟩ }

theorem composite_angle_search_witness :
    ((Tank.inner_tank_thickness npA tankD).2 = 0 ∨
     (Tank.inner_tank_thickness npA tankD).2 = 90 ∨
     (Tank.inner_tank_thickness npA tankD).2 = 1/10) ∧
    (Tank.inner_tank_thickness npA tankD).1 = inner_netting npA tankD 0 :=
  ⟨(composite_angle_search npA tankD (by simp [tankD, tankA])).1,
   ((composite_angle_search npA tankD (by simp [tankD, tankA])).2.2.2.2
     (by with_unfolding_all decide) (by with_unfolding_all decide)
     (by with_unfolding_all decide)).2⟩

/-- `Q_cond(dv)` nested in `Tank.heat_influx` (lines 181–188): series of
four cylindrical-shell logarithmic conduction resistances (inner shell,
MLI blanket, vacuum gap, outer shell, with the outer thickness `t2 = t1`),
driving the ambient-to-tank temperature difference. -/
def Q_cond (np : Numpy) (tank : Tank) (L_in_max t1 t_mli k_vac k_mli dv : ℚ) : ℚ :=
  let T_tank := tank.T0
  let T_amb : ℚ := 300
  let r_in := tank.R_in
  let t2 := t1
  let k_1 := tank.mat_property.thermal_conductivity
  let k_2 := tank.mat2_property.thermal_conductivity
  let R_cond :=
    np.log ((r_in + t1) / r_in) / (2 * np.pi * L_in_max * k_1)
    + np.log ((r_in + t1 + t_mli) / (r_in + t1)) / (2 * np.pi * L_in_max * k_mli)
    + np.log ((r_in + t1 + t_mli + dv) / (r_in + t1 + t_mli)) / (2 * np.pi * L_in_max * k_vac)
    + np.log ((r_in + t1 + dv + t_mli + t2) / (r_in + t1 + dv + t_mli)) / (2 * np.pi * L_in_max * k_2)
  (T_amb - T_tank) / R_cond

/-- `Q_rad(dv)` nested in `Tank.heat_influx` (lines 191–205): the active
Stefan–Boltzmann exchange formula (the commented-out area-ratio variant is
omitted, as in the source the surface `A1` is computed but unused). -/
def Q_rad (np : Numpy) (tank : Tank) (L_in_max t1 t_mli emis_mli dv : ℚ) : ℚ :=
  let T_tank := tank.T0
  let T_amb : ℚ := 300
  let r1 := tank.R_in + t1 + t_mli
  let r2 := r1 + dv
  let A2 := 2 * np.pi * r2 * (L_in_max + 2 * r2)
  let num := 5670374419/100000000000000000 * (T_amb ^ 4 - T_tank ^ 4)
  let denom := 1 / emis_mli + 1 / tank.mat2_property.emissivity - 1
  num * A2 / denom

/-- `total_heat_influx(dv)` (lines 208–211): conduction plus radiation plus
the structural parasitic heat. -/
def total_heat_influx (np : Numpy) (tank : Tank)
    (L_in_max Q_str t1 emis_mli k_vac t_mli k_mli dv : ℚ) : ℚ :=
  Q_cond np tank L_in_max t1 t_mli k_vac k_mli dv
    + Q_rad np tank L_in_max t1 t_mli emis_mli dv + Q_str

/-- `equation(dv)` (lines 214–215): the residual handed to `fsolve`. -/
def gap_equation (np : Numpy) (tank : Tank)
    (L_in_max Q_str t1 emis_mli k_vac t_mli k_mli Qmax dv : ℚ) : ℚ :=
  total_heat_influx np tank L_in_max Q_str t1 emis_mli k_vac t_mli k_mli dv - Qmax

/-- The netting-theory candidate thickness for the outer shell computed in
the composite branch of `Tank.heat_influx` (lines 228–243), at membrane
radius `r_in + t1 + dv + t_mli` under ambient test pressure. -/
def outer_netting (np : Numpy) (tank : Tank) (t1 dv t_mli ang : ℚ) : ℚ :=
  let P_test : ℚ := 101325
  let N_theta_p := P_test * (tank.R_in + t1 + dv + t_mli)
  let N_phi_p := P_test * (tank.R_in + t1 + dv + t_mli) / 2
  let t_heli := N_phi_p / (tank.mat2_property.yield_strength * np.cos ang ^ 2)
  let t_hoop := (N_theta_p - N_phi_p * np.tan ang ^ 2) / tank.mat2_property.yield_strength
  (t_heli + t_hoop) / tank.mat2_property.fibre_ratio

/-- The tuple returned by `Tank.heat_influx` (line 247). -/
structure HeatInfluxResult where
  dv : ℚ
  t2_min : ℚ
  alpha : ℚ
  Q_in_max : ℚ
  q_cond : ℚ
  q_rad : ℚ
deriving DecidableEq

/-- `Tank.heat_influx(L_in_max, Q_str, t1, emis_mli, k_vac, t_mli, k_mli,
Qmax)` (lines 168–247): solve `equation(dv) = 0` for the vacuum gap `dv`
from the fixed initial guess `0.01` (the external `scipy.optimize.fsolve`
is the injected `fsolveFn`), then size the outer shell (composite angle
search or isotropic closed form at ambient pressure), and return the gap,
outer thickness, winding angle, target heat leak and the
conduction/radiation split evaluated at `dv`. -/
def Tank.heat_influx (np : Numpy) (fsolveFn : (ℚ → ℚ) → ℚ → ℚ) (tank : Tank)
    (L_in_max Q_str t1 emis_mli k_vac t_mli k_mli Qmax : ℚ) : HeatInfluxResult :=
  let dv := fsolveFn
    (gap_equation np tank L_in_max Q_str t1 emis_mli k_vac t_mli k_mli Qmax) (1/100)
  let p : ℚ × ℚ :=
    if tank.material2 = "G10" ∨ tank.material2 = "Carbon Fibre Woven Prepreg (QI)" then
      ([0, 90, 1/10] : List ℚ).foldl (fun acc ang =>
        let t := outer_netting np tank t1 dv t_mli ang
        if t < acc.1 then (t, ang) else acc) (1000, 0)
    else
      (101325 * (tank.R_in + t1 + dv + t_mli) / tank.mat2_property.yield_strength, 0)
  { dv := dv
    t2_min := p.1
    alpha := p.2
    Q_in_max := Qmax
    q_cond := Q_cond np tank L_in_max t1 t_mli k_vac k_mli dv
    q_rad := Q_rad np tank L_in_max t1 t_mli emis_mli dv }

/-- C6: whenever the gap solver converges — i.e. the `dv` returned by
`Tank.heat_influx` satisfies `equation(dv) = 0` exactly — the reported
conduction and radiation split at that `dv` plus the structural parasitic
heat reproduces the target allowable heat leak `Qmax`, and the reported
split is exactly the cylindrical-log-resistance conduction and
Stefan–Boltzmann radiation formulas evaluated at the returned gap. -/
theorem vacuum_gap_heat_balance (np : Numpy) (fsolveFn : (ℚ → ℚ) → ℚ → ℚ) (tank : Tank)
    (L_in_max Q_str t1 emis_mli k_vac t_mli k_mli Qmax : ℚ)
    (hconv : gap_equation np tank L_in_max Q_str t1 emis_mli k_vac t_mli k_mli Qmax
      (Tank.heat_influx np fsolveFn tank L_in_max Q_str t1 emis_mli k_vac t_mli k_mli Qmax).dv
      = 0) :
    (Tank.heat_influx np fsolveFn tank L_in_max Q_str t1 emis_mli k_vac t_mli k_mli Qmax).q_cond
      + (Tank.heat_influx np fsolveFn tank L_in_max Q_str t1 emis_mli k_vac t_mli k_mli Qmax).q_rad
      + Q_str = Qmax ∧
    (Tank.heat_influx np fsolveFn tank L_in_max Q_str t1 emis_mli k_vac t_mli k_mli Qmax).q_cond
      = Q_cond np tank L_in_max t1 t_mli k_vac k_mli
        (Tank.heat_influx np fsolveFn tank L_in_max Q_str t1 emis_mli k_vac t_mli k_mli Qmax).dv ∧
    (Tank.heat_influx np fsolveFn tank L_in_max Q_str t1 emis_mli k_vac t_mli k_mli Qmax).q_rad
      = Q_rad np tank L_in_max t1 t_mli emis_mli
        (Tank.heat_influx np fsolveFn tank L_in_max Q_str t1 emis_mli k_vac t_mli k_mli Qmax).dv := by
  refine ⟨?_, rfl, rfl⟩
  simp only [gap_equation, total_heat_influx, Tank.heat_influx] at hconv ⊢
  linarith

theorem vacuum_gap_heat_balance_witness :
    (Tank.heat_influx npA (fun _ _ => 1) tankA 1 5 1 1 1 1 1
        (34745452545452771063/384587500000000)).q_cond
      + (Tank.heat_influx npA (fun _ _ => 1) tankA 1 5 1 1 1 1 1
        (34745452545452771063/384587500000000)).q_rad
      + 5 = 34745452545452771063/384587500000000 :=
  (vacuum_gap_heat_balance npA (fun _ _ => 1) tankA 1 5 1 1 1 1 1
    (34745452545452771063/384587500000000)
    (by with_unfolding_all decide)).1

/-- The failure signalled by the bracketed root finder (the
`RootFindingError` entry of the error taxonomy in the spec). -/
inductive RootFindingError where
  | noSignChange
deriving DecidableEq

/-- Modelled from the spec: the convergent iteration of the bracketed
root-finding method of §4.2 (the source delegates it to
`scipy.optimize.root_scalar` with the brentq method, which is external to
the repository).  Given a sign change across `[a, b]` it keeps the
half-bracket across which the objective changes sign for `fuel`
iterations and returns the midpoint. -/
def bisectRoot (f : ℚ → ℚ) (a b fa : ℚ) : Nat → ℚ
  | 0 => (a + b) / 2
  | n + 1 =>
    let m := (a + b) / 2
    let fm := f m
    if fa * fm ≤ 0 then bisectRoot f a m fa n else bisectRoot f m b fm n

/-- Modelled from the spec: `scipy.optimize.root_scalar` of the objective
over the bracket `[a, b]` with the brentq method, external to the repository.
Per §4.2 it fails with `RootFindingError` when the objective does not
change sign across the bracket — surfaced to the caller, never defaulted —
and otherwise converges. -/
def root_scalar_brentq (f : ℚ → ℚ) (a b : ℚ) (fuel : Nat) :
    Except RootFindingError ℚ :=
  let fa := f a
  let fb := f b
  if 0 < fa * fb then Except.error RootFindingError.noSignChange
  else Except.ok (bisectRoot f a b fa fuel)

/-- `compute_Qleak(material, material2, mat_property, MAWP, mass_h2,
Q_str, mat2_property, str_mass, fill_ratio, V_in, P_vent)`
(lines 339–349): build the tank, then root-find `Tank.maximum_Qin` over
the bracket `[Q_leak_min, Q_leak_max] = [10, 1000]`.  In the source an
absent sign change raises out of `root_scalar` (and a non-converged
result would crash on the unbound `Qmax`), so the failure is an error
surfaced to the caller, never a silently defaulted value. -/
def compute_Qleak (props : FluidProps) (fuelSim fuelRoot : Nat)
    (material material2 : String) (mat_property : MatProp)
    (MAWP mass_h2 Q_str : ℚ) (mat2_property : MatProp)
    (str_mass fill_ratio V_in P_vent : ℚ) : Except RootFindingError ℚ :=
  let tankh2 := Tank.init props MAWP material material2 mat_property mass_h2
    mat2_property fill_ratio V_in P_vent
  root_scalar_brentq (fun Q => Tank.maximum_Qin props tankh2 Q fuelSim)
    tankh2.Q_leak_min tankh2.Q_leak_max fuelRoot

/-- C5: when the dormancy objective does not change sign across the
bracket `[10 W, 1000 W]` (its values at the two endpoints have positive
product), `compute_Qleak` fails with a `RootFindingError` surfaced to the
caller; it never returns a defaulted heat-leak value. -/
theorem qleak_no_sign_change_error (props : FluidProps) (fuelSim fuelRoot : Nat)
    (material material2 : String) (mat_property : MatProp)
    (MAWP mass_h2 Q_str : ℚ) (mat2_property : MatProp)
    (str_mass fill_ratio V_in P_vent : ℚ)
    (h : 0 < Tank.maximum_Qin props
        (Tank.init props MAWP material material2 mat_property mass_h2
          mat2_property fill_ratio V_in P_vent) 10 fuelSim
      * Tank.maximum_Qin props
        (Tank.init props MAWP material material2 mat_property mass_h2
          mat2_property fill_ratio V_in P_vent) 1000 fuelSim) :
    compute_Qleak props fuelSim fuelRoot material material2 mat_property
      MAWP mass_h2 Q_str mat2_property str_mass fill_ratio V_in P_vent
      = Except.error RootFindingError.noSignChange := by
  have e1 : (Tank.init props MAWP material material2 mat_property mass_h2
      mat2_property fill_ratio V_in P_vent).Q_leak_min = 10 := rfl
  have e2 : (Tank.init props MAWP material material2 mat_property mass_h2
      mat2_property fill_ratio V_in P_vent).Q_leak_max = 1000 := rfl
  simp only [compute_Qleak, root_scalar_brentq, e1, e2]
  rw [if_pos h]

/-- The all-zero fluid-property provider. -/
def provZero : FluidProps :=
  { T_of_PQ := fun _ _ => 0
    P_of_TQ := fun _ _ => 0
    D_of_TQ := fun _ _ => 0
    D_of_PQ := fun _ _ => 0
    H_of_TQ := fun _ _ => 0
    H_of_PQ := fun _ _ => 0
    dD_dP_of_TQ := fun _ _ => 0
    dD_dT_of_PQ := fun _ _ => 0
    dH_dP_of_TQ := fun _ _ => 0
    dH_dT_of_PQ := fun _ _ => 0 }

theorem qleak_no_sign_change_error_witness :
    compute_Qleak provZero 3 3 "Al-7075-T6" "Al-7075-T6" ⟨1, 1, 1, 1, 1, 1, 0⟩
      1200000 1 0 ⟨1, 1, 1, 1, 1, 1, 0⟩ 0 (1/2) 1 1000
      = Except.error RootFindingError.noSignChange :=
  qleak_no_sign_change_error provZero 3 3 "Al-7075-T6" "Al-7075-T6"
    ⟨1, 1, 1, 1, 1, 1, 0⟩ 1200000 1 0 ⟨1, 1, 1, 1, 1, 1, 0⟩ 0 (1/2) 1 1000
    (by with_unfolding_all decide)

/-- `Tank.volume_equation(l)` (lines 135–140). -/
def Tank.volume_equation (np : Numpy) (tank : Tank) (l : ℚ) : ℚ :=
  let L_cyl := l - 2 * tank.R_in
  if L_cyl < 0 then 1000000
  else np.pi * tank.R_in ^ 2 * L_cyl + (4/3) * np.pi * tank.R_in ^ 3 - tank.V_in

/-- `Tank.total_volume(l, dv, t1, t2, t_mli)` (lines 250–253). -/
def Tank.total_volume (np : Numpy) (tank : Tank) (l dv t1 t2 t_mli : ℚ) : ℚ :=
  let R_out := tank.R_in + dv + t1 + t2 + t_mli
  np.pi * R_out ^ 2 * (l - 2 * tank.R_in) + (4/3) * np.pi * R_out ^ 3

/-- `Tank.total_mass(l, dv, t1, t2, t_mli, dens_mli)` (lines 255–263):
returns `(mass_inner, mass_outer, mass_mli)`. -/
def Tank.total_mass (np : Numpy) (tank : Tank)
    (l dv t1 t2 t_mli dens_mli : ℚ) : ℚ × ℚ × ℚ :=
  let R_out := tank.R_in + dv + t1 + t2 + t_mli
  let L_cyl := l - 2 * tank.R_in
  let surface_inner := 2 * np.pi * tank.R_in * L_cyl + 4 * np.pi * tank.R_in ^ 2
  let surface_outer := 2 * np.pi * R_out * L_cyl + 4 * np.pi * R_out ^ 2
  (surface_inner * t1 * tank.mat_property.density,
   surface_outer * t2 * tank.mat2_property.density,
   surface_inner * t_mli * dens_mli)

/-- `Tank.kg_co2` (lines 265–271). -/
def Tank.kg_co2 (tank : Tank)
    (mass_inner mass_outer mass_mli mass_str mli_co2 co2_kevlar : ℚ) : ℚ :=
  mass_inner * tank.mat_property.co2 + mass_outer * tank.mat2_property.co2
    + mass_mli * mli_co2 + mass_str * co2_kevlar

/-- `Tank.embodied_energy` (lines 273–279). -/
def Tank.embodied_energy (tank : Tank)
    (mass_inner mass_outer mass_mli mass_str kevlar_ee mli_ee : ℚ) : ℚ :=
  mass_inner * tank.mat_property.ee + mass_outer * tank.mat2_property.ee
    + mass_mli * mli_ee + mass_str * kevlar_ee

/-- Module constants of the tank database and structure section
(lines 283–321). -/
def SF : ℚ := 9/10

/-- The five-material database (line 283). -/
def materials_all : List String :=
  ["Al-7075-T6", "G10", "SS-304", "Carbon Fibre Woven Prepreg (QI)", "SS-316"]

/-- The property rows of `mat_properties` (lines 286–290). -/
def mat_properties_all : List MatProp :=
  [⟨2800, 495 * 10 ^ 6 * SF, 134, 11/100, 7795/1000, 106, 0⟩,
   ⟨1900, 298 * 10 ^ 6 * SF, 1/2, 95/100, 1525/100, 369, 4/10⟩,
   ⟨7955, 2575/10 * 10 ^ 6 * SF, 155/10, 35/100, 3, 4275/100, 0⟩,
   ⟨1575, 5495/10 * 10 ^ 6 * SF, 164/100, 77/100, 478/10, 6865/10, 625/1000⟩,
   ⟨7970, 2575/10 * 10 ^ 6 * SF, 15, 35/100, 4265/1000, 4975/100, 0⟩]

/-- `n_mats = 2` (line 295): the sweep truncates the database. -/
def n_mats : Nat := 2

/-- `materials = materials[:n_mats]` (line 296). -/
def materials : List String := materials_all.take n_mats

/-- `mat_properties = mat_properties[:n_mats]` (line 297). -/
def mat_properties : List MatProp := mat_properties_all.take n_mats

/-- `MAWP = 1200000` (line 292). -/
def MAWP : ℚ := 1200000

/-- `P_vents = [600000, 800000, 1000000]` (line 293). -/
def P_vents : List ℚ := [600000, 800000, 1000000]

/-- Structure-section constants (lines 301–321). -/
def Q_og_str : ℚ := 4/10

def og_str_mass : ℚ := 21/10

def og_lh2 : ℚ := 62/10

def grav_idx : ℚ := 35/100

def co2_kevlar : ℚ := 131/10

def kevlar_ee : ℚ := 257

def mass_h2 : ℚ := 53265/100

def estimated_mass : ℚ := mass_h2 / grav_idx - mass_h2

def t_limit : ℚ := 1/1000

def t_mli : ℚ := 10 * 1/1000

def dens_mli : ℚ := 180

def emis_mli : ℚ := 23/100

def k_vac : ℚ := 15/1000 * 1/10

def k_mli : ℚ := 35/1000

def mli_co2 : ℚ := 803/100

def mli_ee : ℚ := 1084/10

/-- `fA(mh2, P_vent, fl_final=0.98)` (lines 323–337): total fluid volume
and initial fill fraction; the callers of this embedding pass the default
`fl_final = 0.98` explicitly. -/
def fA (props : FluidProps) (mh2 P_vent fl_final : ℚ) : ℚ × ℚ :=
  let rho_l_f := props.D_of_PQ P_vent 0
  let V_l_fin := mh2 / rho_l_f
  let V_tot := V_l_fin / fl_final
  let rho_l_0 := props.D_of_PQ 101325 0
  let V_l_0 := mh2 / rho_l_0
  let fl_init := V_l_0 / V_tot
  (V_tot, fl_init)

/-- The row returned by `compute_tank_volume` (line 380). -/
structure SizeOut where
  Vt : ℚ
  Mt : ℚ
  mass_error : ℚ
  Vh2 : ℚ
  t1 : ℚ
  t2 : ℚ
  dv : ℚ
  L_in : ℚ
  Vh2b : ℚ
  R_in : ℚ
  co2_kg : ℚ
  emb_energy : ℚ
  ang1_w : ℚ
  ang2_w : ℚ
  p_vent : ℚ
  Qleak : ℚ
  Qcond : ℚ
  Qrad : ℚ
deriving DecidableEq

/-- `compute_tank_volume(...)` (lines 351–380): build the tank, root-find
the inner length over the bracket `[2*R_in, 10]` (`scipy` raises when the
volume equation does not change sign there), clamp the inner thickness at
`t_limit`, solve the heat influx, and aggregate volume, masses, CO2 and
embodied energy into the result row. -/
def compute_tank_volume (props : FluidProps) (np : Numpy)
    (fsolveFn : (ℚ → ℚ) → ℚ → ℚ) (fuelRoot : Nat)
    (material material2 : String) (mat_property : MatProp)
    (MAWP mass_h2 Q_str : ℚ) (mat2_property : MatProp)
    (str_mass fill_ratio V_in P_vent Qmax : ℚ) :
    Except RootFindingError SizeOut :=
  let tankh2 := Tank.init props MAWP material material2 mat_property mass_h2
    mat2_property fill_ratio V_in P_vent
  match root_scalar_brentq (Tank.volume_equation np tankh2)
      (2 * tankh2.R_in) 10 fuelRoot with
  | Except.error e => Except.error e
  | Except.ok L_in =>
    let p1 := Tank.inner_tank_thickness np tankh2
    let t1 := if p1.1 < t_limit then t_limit else p1.1
    let r := Tank.heat_influx np fsolveFn tankh2 L_in Q_str t1 emis_mli k_vac
      t_mli k_mli Qmax
    let t2 := max r.t2_min t_limit
    let Vt := Tank.total_volume np tankh2 L_in r.dv t1 t2 t_mli
    let m := Tank.total_mass np tankh2 L_in r.dv t1 t2 t_mli dens_mli
    let Mt := m.1 + m.2.1 + m.2.2 + mass_h2 + str_mass
    let mass_error := Mt - estimated_mass - mass_h2
    let co2_kg := Tank.kg_co2 tankh2 m.1 m.2.1 m.2.2 str_mass mli_co2 co2_kevlar
    let emb := Tank.embodied_energy tankh2 m.1 m.2.1 m.2.2 str_mass kevlar_ee mli_ee
    Except.ok ⟨Vt, Mt, mass_error, tankh2.V_in, t1, t2, r.dv, L_in, tankh2.V_in,
      tankh2.R_in, co2_kg, emb, p1.2, r.alpha, P_vent, r.Q_in_max, r.q_cond, r.q_rad⟩

/-- One `P_vent` iteration of the `RUN` sweep (lines 399–445; the CSV and
plot bookkeeping carry no further data and are omitted): compute the fill
data and the allowable heat leak, then size every inner×outer material
combination in order, appending each result row.  The source has no
exception handling here, so any error raised for one combination
propagates out of the whole iteration — modelled by the `Except` monad. -/
def processVent (props : FluidProps) (np : Numpy)
    (fsolveFn : (ℚ → ℚ) → ℚ → ℚ) (fuelSim fuelRoot : Nat)
    (acc : List SizeOut) (P_vent : ℚ) : Except RootFindingError (List SizeOut) := do
  let vf := fA props mass_h2 P_vent (98/100)
  let Qmax ← compute_Qleak props fuelSim fuelRoot materials.headI materials.headI
    mat_properties.headI MAWP mass_h2 0 mat_properties.headI 0 vf.2 vf.1 P_vent
  (materials.zip mat_properties).foldlM (fun acc2 mp =>
    (materials.zip mat_properties).foldlM (fun acc3 mp2 => do
      let og_tank_mass : ℚ :=
        if mp.1 = "G10" ∨ mp.1 = "Carbon Fibre Woven Prepreg (QI)" then 48/10 + 315/100
        else 84/10 + 36/10
      let ratio := og_str_mass / (og_tank_mass + og_lh2)
      let str_mass := estimated_mass * ratio
      let Q_str := Q_og_str * np.sqrt (ratio / ratio)
      let row ← compute_tank_volume props np fsolveFn fuelRoot mp.1 mp2.1 mp.2 MAWP
        mass_h2 Q_str mp2.2 str_mass vf.2 vf.1 P_vent Qmax
      pure (acc3 ++ [row])) acc2) acc

/-- The outer `RUN` sweep over vent pressures (line 399), folding
`processVent` over the vent-pressure list. -/
def runSweep (props : FluidProps) (np : Numpy) (fsolveFn : (ℚ → ℚ) → ℚ → ℚ)
    (fuelSim fuelRoot : Nat) (pvents : List ℚ) :
    Except RootFindingError (List SizeOut) :=
  pvents.foldlM (processVent props np fsolveFn fuelSim fuelRoot) []

/-- Recognises the sweep outcome `Except.error noSignChange`. -/
def isNoSignChangeError : Except RootFindingError (List SizeOut) → Bool
  | Except.error RootFindingError.noSignChange => true
  | _ => false

/-- Recognises a successful per-combination sizing. -/
def isOkRow : Except RootFindingError SizeOut → Bool
  | Except.ok _ => true
  | _ => false

/-- A provider under which the simulated pressure rises by `20000·Q` per
step, so the run vents after a few steps, and both bracket endpoints of
the dormancy objective are negative: the root find for the first vent
pressure raises `RootFindingError`. -/
def provC9 : FluidProps :=
  { T_of_PQ := fun p _ => p
    P_of_TQ := fun t _ => t
    D_of_TQ := fun _ q => if q = 1 then 1 else 2
    D_of_PQ := fun p q => if q = 1 then 1 else if p < 200000 then 21306 else 532650/49
    H_of_TQ := fun _ _ => 0
    H_of_PQ := fun _ _ => 0
    dD_dP_of_TQ := fun _ _ => 0
    dD_dT_of_PQ := fun _ _ => 0
    dH_dP_of_TQ := fun _ _ => 0
    dH_dT_of_PQ := fun _ _ => 1 }

set_option maxRecDepth 200000 in
/-- C9 (counterexample): the claim that an error while sizing one
combination is isolated to that combination — with the sweep continuing
through every remaining combination and recording which failed — is false.
At this concrete provider the sizing of the very first vent pressure
(600000 Pa) raises `RootFindingError`, and the whole sweep over all
material-pair × vent-pressure combinations returns exactly that error: no
result rows for the remaining combinations and no record of failures
exist, because the `RUN` loop (lines 398–411) has no exception handling.
The third conjunct shows the loss is real: the per-combination sizing
(`compute_tank_volume`) of the Al-7075-T6 pair at the remaining vent
pressure 800000 Pa succeeds when invoked on its own, yet the sweep output
contains no row for it. -/
theorem sweep_error_not_isolated :
    isNoSignChangeError (runSweep provC9 npA (fun _ _ => 1) 5 2 P_vents) = true ∧
    isNoSignChangeError
      (processVent provC9 npA (fun _ _ => 1) 5 2 [] P_vents.headI) = true ∧
    isOkRow (compute_tank_volume provC9 npA (fun _ _ => 1) 2
      materials.headI materials.headI mat_properties.headI MAWP mass_h2 (4/10)
      mat_properties.headI (estimated_mass * (3/26)) (1/2) 5 800000 134) = true := by
  refine ⟨?_, ?_, ?_⟩ <;> with_unfolding_all decide

/-- C9 (amended): an error raised while sizing the combinations of one
vent pressure is not isolated: the sweep re-raises it immediately, the
remaining vent pressures are never processed, and the output carries no
rows and no record of which combinations failed. -/
theorem sweep_halts_on_first_error (props : FluidProps) (np : Numpy)
    (fsolveFn : (ℚ → ℚ) → ℚ → ℚ) (fuelSim fuelRoot : Nat)
    (pv : ℚ) (rest : List ℚ) (e : RootFindingError)
    (h : processVent props np fsolveFn fuelSim fuelRoot [] pv = Except.error e) :
    runSweep props np fsolveFn fuelSim fuelRoot (pv :: rest) = Except.error e := by
  simp only [runSweep, List.foldlM_cons, h]
  rfl

set_option maxRecDepth 200000 in
theorem sweep_halts_on_first_error_witness :
    runSweep provC9 npA (fun _ _ => 1) 5 2 (600000 :: [800000, 1000000])
      = Except.error RootFindingError.noSignChange :=
  sweep_halts_on_first_error provC9 npA (fun _ _ => 1) 5 2 600000
    [800000, 1000000] RootFindingError.noSignChange (by with_unfolding_all rfl)
